import Mathlib

/-!
Verification of `inventory_system.py`: a shallow embedding of the functions
of the module (`add_item`, `remove_item`, `get_qty`, `load_data`,
`save_data`, `print_data`, `check_low_items`) and proofs of the claims made
by the specification about them.

Modelling choices:
* A Python `dict` from item names to quantities is an association list
  `List (String × Int)` whose operations mirror CPython dict semantics:
  updating an existing key keeps its position, inserting a new key appends
  it, deletion removes it.  Real Python dicts have no duplicate keys; the
  operations below behave identically to dicts on duplicate-free lists.
* Python run-time values that can reach the `qty` argument of `add_item`
  or come out of `json.load` are modelled by the inductive type `PyVal`
  (JSON floats are not modelled; all JSON numbers here are integers).
  `isinstance(qty, int)` is true for `int` and (per Python) for `bool`.
* The file system is a map from path to `FileState`: a file can be absent,
  hold a valid JSON document (represented by its decoded `PyVal`), hold
  text that is not valid JSON, or raise some other I/O error on open.
  `json.dump`/`json.load` are modelled at the JSON-value level: a dump of
  a string-keyed dict stores the corresponding JSON object, and loading a
  valid document returns its decoded value; the textual (indented)
  rendering is abstracted away.
* `logging.info/warning/error` calls are collected as `Diag` records
  returned alongside the result of each function; the caller-supplied `logs`
  list of `add_item` is threaded explicitly (the `logs=None` default,
  which allocates a fresh throw-away list, corresponds to discarding the
  returned list).  Timestamps (`datetime.now()`) are passed in as an
  opaque `now` string.
-/

namespace InventorySystem

/-- Severity of a diagnostic, mirroring the `logging` levels used in the
module (`logging.info`, `logging.warning`, `logging.error`). -/
inductive Level where
  | info
  | warning
  | error
  deriving DecidableEq, Repr

/-- One emitted diagnostic: a level and the formatted message. -/
structure Diag where
  level : Level
  msg : String
  deriving DecidableEq, Repr

/-- Python run-time values relevant to the module: integers, booleans,
strings, `None`, lists and string-keyed dicts (the shapes producible by
`json.load`; JSON floats are not modelled). -/
inductive PyVal where
  | int (n : Int)
  | bool (b : Bool)
  | str (s : String)
  | null
  | list (xs : List PyVal)
  | dict (xs : List (String × PyVal))

/-- `isinstance(v, int)` for a `PyVal`.  In Python, `bool` is a subclass of
`int`, so booleans pass the check. -/
def PyVal.isInt : PyVal → Bool
  | .int _ => true
  | .bool _ => true
  | _ => false

/-- The integer value of a `PyVal` that passes `isinstance(v, int)`
(`True` is 1, `False` is 0); 0 on other constructors (unused there). -/
def PyVal.toInt : PyVal → Int
  | .int n => n
  | .bool b => bif b then 1 else 0
  | _ => 0

/-- The in-memory inventory: a Python dict from item name to quantity,
as an insertion-ordered association list. -/
abbrev Inventory := List (String × Int)

/-- `d.get(k)` as an `Option`: the value at the first entry with key `k`. -/
def dictFind? (d : Inventory) (k : String) : Option Int :=
  match d with
  | [] => none
  | (k₁, v) :: rest => if k₁ = k then some v else dictFind? rest k

/-- `d.get(k, dflt)`: the stored value, or `dflt` when `k` is absent. -/
def dictGet (d : Inventory) (k : String) (dflt : Int) : Int :=
  (dictFind? d k).getD dflt

/-- `k in d`. -/
def dictMem (d : Inventory) (k : String) : Prop :=
  dictFind? d k ≠ none

instance (d : Inventory) (k : String) : Decidable (dictMem d k) := by
  unfold dictMem
  infer_instance

/-- `d[k] = v`: overwrite in place when `k` is present (keeping its
position, as CPython dicts do), otherwise append the new entry. -/
def dictSet (d : Inventory) (k : String) (v : Int) : Inventory :=
  match d with
  | [] => [(k, v)]
  | (k₁, v₁) :: rest =>
      if k₁ = k then (k₁, v) :: rest else (k₁, v₁) :: dictSet rest k v

/-- `del d[k]`: drop the entry with key `k` (all of them; duplicate-free
lists, the image of real dicts, have at most one). -/
def dictDel (d : Inventory) (k : String) : Inventory :=
  d.filter (fun p => !(p.1 == k))

/-- The f-string `f"Added {qty} of {item}"` of `add_item`. -/
def addMessage (item : String) (q : Int) : String :=
  s!"Added {q} of {item}"

/-- The f-string `f"{datetime.now()}: {log_message}"` of `add_item`. -/
def addLogLine (now message : String) : String :=
  s!"{now}: {message}"

/--
`add_item(stock_data, item, qty, logs)` (source defaults:
`item="default"`, `qty=0`, `logs=None`).  Validation: `not item or not
isinstance(qty, int)` logs an error and returns without mutating.
Otherwise `stock_data[item] = stock_data.get(item, 0) + qty`, a line
`f"{datetime.now()}: Added {qty} of {item}"` is appended to `logs`, and an
info diagnostic is emitted.  Returns the new inventory, the new log list
and the emitted diagnostics.
-/
def addItem (stock : Inventory) (item : String) (qty : PyVal)
    (logs : List String) (now : String) :
    Inventory × List String × List Diag :=
  if item = "" ∨ qty.isInt = false then
    (stock, logs, [⟨Level.error, "Invalid item name or quantity type provided."⟩])
  else
    let message := addMessage item qty.toInt
    (dictSet stock item (dictGet stock item 0 + qty.toInt),
     logs ++ [addLogLine now message],
     [⟨Level.info, message⟩])

/-- The warning message of `remove_item`:
`"Attempted to remove '%s', which is not in the inventory." % item`. -/
def removeWarning (item : String) : String :=
  s!"Attempted to remove \x27{item}\x27, which is not in the inventory."

/--
`remove_item(stock_data, item, qty)`: reads `stock_data[item]`; a
`KeyError` (absent key) is caught and logged as a warning.  When present,
`stock_data[item] -= qty` if the stored value exceeds `qty`, else
`del stock_data[item]`.  Returns the new inventory and the diagnostics.
-/
def removeItem (stock : Inventory) (item : String) (qty : Int) :
    Inventory × List Diag :=
  match dictFind? stock item with
  | some stored =>
      if stored > qty then (dictSet stock item (stored - qty), [])
      else (dictDel stock item, [])
  | none =>
      (stock, [⟨Level.warning, removeWarning item⟩])

/-- `get_qty(stock_data, item)`: `stock_data.get(item, 0)`. -/
def getQty (stock : Inventory) (item : String) : Int :=
  dictGet stock item 0

/-- State of one path of the file system, as `load_data`/`save_data`
distinguish them: no file; a file holding a valid JSON document (kept in
decoded form); a file whose text is not valid JSON; a file whose open
fails with some other `OSError`. -/
inductive FileState where
  | absent
  | json (v : PyVal)
  | notJson
  | ioError

/-- The file system: contents by path. -/
abbrev FS := String → FileState

/--
`load_data(file)` (source default `file="inventory.json"`): returns
`json.load(f)` on success — the decoded document as is, with no shape
validation.  `FileNotFoundError` yields `{}` with a warning,
`json.JSONDecodeError` yields `{}` with an error; any other I/O failure is
uncaught and propagates (`Except.error ()`).
-/
def loadData (fs : FS) (file : String) : Except Unit (PyVal × List Diag) :=
  match fs file with
  | .json v => .ok (v, [])
  | .absent =>
      .ok (.dict [],
        [⟨Level.warning, "Inventory file not found. Starting with an empty inventory."⟩])
  | .notJson =>
      .ok (.dict [], [⟨Level.error, "Could not decode JSON from the inventory file."⟩])
  | .ioError => .error ()

/-- The JSON document `json.dump` writes for a string-keyed, integer-valued
dict: the corresponding JSON object. -/
def invToPy (stock : Inventory) : PyVal :=
  .dict (stock.map (fun p => (p.1, PyVal.int p.2)))

/--
`save_data(stock_data, file)` (source default `file="inventory.json"`):
serialize the inventory to JSON and write it to `file`, replacing any
previous content.
-/
def saveData (stock : Inventory) (fs : FS) (file : String) : FS :=
  fun p => if p = file then .json (invToPy stock) else fs p

/-- Read the entry list of a decoded JSON object back as an inventory;
`none` as soon as some value is not an integer. -/
def entriesToInv : List (String × PyVal) → Option Inventory
  | [] => some []
  | (k, PyVal.int n) :: rest => (entriesToInv rest).map (fun r => (k, n) :: r)
  | _ => none

/-- Read a decoded JSON document back as an inventory (a flat mapping from
string names to integer quantities); `none` when it has another shape. -/
def pyToInv : PyVal → Option Inventory
  | .dict xs => entriesToInv xs
  | _ => none

/-- The per-item line `f"{item} -> {quantity}"` of `print_data`. -/
def reportLine (p : String × Int) : String :=
  s!"{p.1} -> {p.2}"

/-- `print_data(stock_data)` as the list of printed lines: banner, the
"Inventory is empty." notice when empty, one line per item in iteration
order, closing banner. -/
def printData (stock : Inventory) : List String :=
  ["", "--- Items Report ---"]
    ++ (if stock.isEmpty then ["Inventory is empty."] else [])
    ++ stock.map reportLine
    ++ ["--------------------", ""]

/-- `check_low_items(stock_data, threshold)`: names of the items whose
quantity is strictly below `threshold`, in iteration order. -/
def checkLowItems (stock : Inventory) (threshold : Int) : List String :=
  (stock.filter (fun p => decide (p.2 < threshold))).map Prod.fst

/-- `check_low_items` called with its default `threshold=5`. -/
def checkLowItemsDefault (stock : Inventory) : List String :=
  checkLowItems stock 5

/-! ### Lemmas about the dict operations -/

theorem dictFind?_dictSet_self (d : Inventory) (k : String) (v : Int) :
    dictFind? (dictSet d k v) k = some v := by
  induction d with
  | nil => simp [dictSet, dictFind?]
  | cons p rest ih =>
      obtain ⟨k₁, v₁⟩ := p
      by_cases h : k₁ = k
      · simp [dictSet, dictFind?, h]
      · simp [dictSet, dictFind?, h, ih]

theorem dictFind?_dictDel_self (d : Inventory) (k : String) :
    dictFind? (dictDel d k) k = none := by
  induction d with
  | nil => rfl
  | cons p rest ih =>
      obtain ⟨k₁, v₁⟩ := p
      by_cases h : k₁ = k
      · simpa [dictDel, h] using ih
      · simpa [dictDel, dictFind?, h] using ih

theorem mem_dictSet_self (d : Inventory) (k : String) (v : Int) :
    (k, v) ∈ dictSet d k v := by
  induction d with
  | nil => simp [dictSet]
  | cons p rest ih =>
      obtain ⟨k₁, v₁⟩ := p
      by_cases h : k₁ = k
      · simp [dictSet, h]
      · simp [dictSet, h, ih]

theorem keys_dictSet_superset (d : Inventory) (k k₁ : String) (v : Int)
    (h : k₁ ∈ d.map Prod.fst) : k₁ ∈ (dictSet d k v).map Prod.fst := by
  induction d with
  | nil => simp at h
  | cons p rest ih =>
      obtain ⟨k₂, v₂⟩ := p
      by_cases hk : k₂ = k
      · simpa [dictSet, hk] using (by simpa [hk] using h)
      · rcases (by simpa using h) with h₁ | h₂
        · simp [dictSet, hk, h₁]
        · simp [dictSet, hk]
          exact Or.inr (by simpa using ih (by simpa using h₂))

theorem entriesToInv_map (l : Inventory) :
    entriesToInv (l.map (fun p => (p.1, PyVal.int p.2))) = some l := by
  induction l with
  | nil => rfl
  | cons p rest ih =>
      obtain ⟨k, n⟩ := p
      simp [entriesToInv, ih]

/-! ### Unfolding lemmas for the branches of add_item and remove_item -/

theorem addItem_eq_invalid (stock : Inventory) (item : String) (qty : PyVal)
    (logs : List String) (now : String)
    (h : item = "" ∨ qty.isInt = false) :
    addItem stock item qty logs now
      = (stock, logs,
         [⟨Level.error, "Invalid item name or quantity type provided."⟩]) := by
  unfold addItem
  rw [if_pos h]

theorem addItem_eq_valid (stock : Inventory) (item : String) (qty : PyVal)
    (logs : List String) (now : String)
    (hitem : item ≠ "") (hq : qty.isInt = true) :
    addItem stock item qty logs now
      = (dictSet stock item (dictGet stock item 0 + qty.toInt),
         logs ++ [addLogLine now (addMessage item qty.toInt)],
         [⟨Level.info, addMessage item qty.toInt⟩]) := by
  unfold addItem
  rw [if_neg]
  simp [hitem, hq]

theorem removeItem_eq_of_gt (stock : Inventory) (item : String)
    (qty stored : Int) (hfind : dictFind? stock item = some stored)
    (h : qty < stored) :
    removeItem stock item qty = (dictSet stock item (stored - qty), []) := by
  unfold removeItem
  rw [hfind]
  simp [h]

theorem removeItem_eq_of_le (stock : Inventory) (item : String)
    (qty stored : Int) (hfind : dictFind? stock item = some stored)
    (h : stored ≤ qty) :
    removeItem stock item qty = (dictDel stock item, []) := by
  unfold removeItem
  rw [hfind]
  simp [show ¬ stored > qty from not_lt.mpr h]

theorem removeItem_eq_of_none (stock : Inventory) (item : String)
    (qty : Int) (hfind : dictFind? stock item = none) :
    removeItem stock item qty
      = (stock, [⟨Level.warning, removeWarning item⟩]) := by
  unfold removeItem
  rw [hfind]

/-! ### The claims -/

/-- C1: for an item present in the inventory with stored quantity
`stored`, remove_item decrements the entry by `qty` when `stored > qty`;
when `stored ≤ qty` it deletes the entry entirely, so the name is no
longer a key and get_qty then returns 0; and the entry it leaves behind,
if any, is never stored at zero or a negative value. -/
theorem remove_present_spec (stock : Inventory) (item : String)
    (qty stored : Int) (hfind : dictFind? stock item = some stored) :
    (stored > qty →
        (removeItem stock item qty).1 = dictSet stock item (stored - qty) ∧
        getQty (removeItem stock item qty).1 item = stored - qty) ∧
    (stored ≤ qty →
        ¬ dictMem (removeItem stock item qty).1 item ∧
        getQty (removeItem stock item qty).1 item = 0) ∧
    (∀ v, dictFind? (removeItem stock item qty).1 item = some v → 0 < v) := by
  refine ⟨fun h => ?_, fun h => ?_, fun v hv => ?_⟩
  · rw [removeItem_eq_of_gt stock item qty stored hfind h]
    exact ⟨rfl, by simp [getQty, dictGet, dictFind?_dictSet_self]⟩
  · rw [removeItem_eq_of_le stock item qty stored hfind h]
    exact ⟨by simp [dictMem, dictFind?_dictDel_self],
           by simp [getQty, dictGet, dictFind?_dictDel_self]⟩
  · by_cases h : stored > qty
    · rw [removeItem_eq_of_gt stock item qty stored hfind h,
          dictFind?_dictSet_self] at hv
      simp only [Option.some.injEq] at hv
      omega
    · rw [removeItem_eq_of_le stock item qty stored hfind (not_lt.mp h),
          dictFind?_dictDel_self] at hv
      simp at hv

/-- Witness for C1 at the stock {"x": 5} with removal quantity 2. -/
theorem remove_present_spec_witness :
    getQty (removeItem [("x", 5)] "x" 2).1 "x" = 5 - 2 :=
  ((remove_present_spec [("x", 5)] "x" 2 5 (by decide)).1 (by decide)).2

/-- C2: a successful add_item sets the stored quantity of the item to its
previous stored quantity (0 when absent) plus `q`; two successive adds of
`a` and `b` to a name that was absent leave its quantity at `a + b`. -/
theorem add_accumulates (stock : Inventory) (item n : String) (q a b : Int)
    (logs logs₁ logs₂ : List String) (now now₁ now₂ : String)
    (hitem : item ≠ "") (hn : n ≠ "") (habs : dictFind? stock n = none) :
    getQty (addItem stock item (PyVal.int q) logs now).1 item
      = getQty stock item + q ∧
    getQty (addItem (addItem stock n (PyVal.int a) logs₁ now₁).1 n
        (PyVal.int b) logs₂ now₂).1 n = a + b := by
  constructor
  · rw [addItem_eq_valid stock item (PyVal.int q) logs now hitem rfl]
    simp [getQty, dictGet, dictFind?_dictSet_self, PyVal.toInt]
  · rw [addItem_eq_valid stock n (PyVal.int a) logs₁ now₁ hn rfl,
        addItem_eq_valid _ n (PyVal.int b) logs₂ now₂ hn rfl]
    simp [getQty, dictGet, dictFind?_dictSet_self, habs, PyVal.toInt]

/-- Witness for C2: adding 2 then 3 of an absent item yields 2 + 3. -/
theorem add_accumulates_witness :
    getQty (addItem (addItem [] "n" (PyVal.int 2) [] "t").1 "n"
        (PyVal.int 3) [] "u").1 "n" = 2 + 3 :=
  (add_accumulates [] "x" "n" 1 2 3 [] [] [] "t" "t" "u"
    (by decide) (by decide) rfl).2

/-- C3: saving an inventory of string keys and integer quantities to a
path and loading from that path succeeds with no diagnostics and returns
a value that reads back as exactly the original mapping. -/
theorem save_load_round_trip (stock : Inventory) (fs : FS) (file : String) :
    ∃ v, loadData (saveData stock fs file) file = Except.ok (v, []) ∧
      pyToInv v = some stock := by
  refine ⟨invToPy stock, ?_, ?_⟩
  · simp [loadData, saveData]
  · simp [pyToInv, invToPy, entriesToInv_map]

/-- C4: load_data returns an empty mapping with a warning when the file
is absent, an empty mapping with an error when the file is not valid
JSON, the decoded document with no diagnostics when it is valid JSON, and
propagates any other I/O failure. -/
theorem load_error_handling (fs : FS) (file : String) :
    (fs file = FileState.absent →
        loadData fs file = Except.ok (PyVal.dict [],
          [⟨Level.warning,
            "Inventory file not found. Starting with an empty inventory."⟩])) ∧
    (fs file = FileState.notJson →
        loadData fs file = Except.ok (PyVal.dict [],
          [⟨Level.error, "Could not decode JSON from the inventory file."⟩])) ∧
    (∀ v, fs file = FileState.json v →
        loadData fs file = Except.ok (v, [])) ∧
    (fs file = FileState.ioError → loadData fs file = Except.error ()) := by
  refine ⟨fun h => ?_, fun h => ?_, fun v h => ?_, fun h => ?_⟩ <;>
    simp [loadData, h]

/-- Witness for C4 at a file system with no files. -/
theorem load_error_handling_witness :
    loadData (fun _ => FileState.absent) "inventory.json"
      = Except.ok (PyVal.dict [],
          [⟨Level.warning,
            "Inventory file not found. Starting with an empty inventory."⟩]) :=
  (load_error_handling (fun _ => FileState.absent) "inventory.json").1 rfl

/-- C5: add_item with an empty name or a non-integer quantity leaves the
inventory and the caller-supplied log list unchanged, raises nothing, and
emits exactly one error diagnostic. -/
theorem add_invalid_noop (stock : Inventory) (item : String) (qty : PyVal)
    (logs : List String) (now : String)
    (h : item = "" ∨ qty.isInt = false) :
    addItem stock item qty logs now
      = (stock, logs,
         [⟨Level.error, "Invalid item name or quantity type provided."⟩]) :=
  addItem_eq_invalid stock item qty logs now h

/-- Witness for C5 at add_item(\x7b"x": 1\x7d, "x", "ten"). -/
theorem add_invalid_noop_witness :
    addItem [("x", 1)] "x" (PyVal.str "ten") [] "t"
      = ([("x", 1)], [],
         [⟨Level.error, "Invalid item name or quantity type provided."⟩]) :=
  add_invalid_noop [("x", 1)] "x" (PyVal.str "ten") [] "t" (Or.inr rfl)

/-- C6: remove_item of an absent name leaves the inventory unchanged,
raises nothing, and emits one warning diagnostic naming the missing item;
when the name is present no diagnostic at all is emitted, so the absent
name is the only error path. -/
theorem remove_absent_noop (stock : Inventory) (item : String) (qty : Int) :
    (dictFind? stock item = none →
        removeItem stock item qty
          = (stock, [⟨Level.warning, removeWarning item⟩])) ∧
    (∀ stored, dictFind? stock item = some stored →
        (removeItem stock item qty).2 = []) := by
  constructor
  · intro h
    exact removeItem_eq_of_none stock item qty h
  · intro stored h
    by_cases hgt : stored > qty
    · rw [removeItem_eq_of_gt stock item qty stored h hgt]
    · rw [removeItem_eq_of_le stock item qty stored h (not_lt.mp hgt)]

/-- Witness for C6 at remove_item(\x7b\x7d, "ghost", 1). -/
theorem remove_absent_noop_witness :
    removeItem [] "ghost" 1
      = ([], [⟨Level.warning, removeWarning "ghost"⟩]) :=
  (remove_absent_noop [] "ghost" 1).1 rfl

/-- C7: check_low_items returns exactly the names whose stored quantity is
strictly below the threshold, as a subsequence of the keys in iteration
order, without mutating anything (it is a pure function); with the default
threshold 5 on \x7b"a": 2, "b": 10, "c": 4\x7d it returns ["a", "c"]. -/
theorem check_low_items_spec (stock : Inventory) (threshold : Int) :
    (∀ name, name ∈ checkLowItems stock threshold ↔
        ∃ q, (name, q) ∈ stock ∧ q < threshold) ∧
    (checkLowItems stock threshold).Sublist (stock.map Prod.fst) ∧
    checkLowItemsDefault [("a", 2), ("b", 10), ("c", 4)] = ["a", "c"] := by
  unfold checkLowItems
  refine ⟨fun name => ?_, ?_, by decide⟩
  · constructor
    · intro h
      rcases List.mem_map.mp h with ⟨p, hp, rfl⟩
      rcases List.mem_filter.mp hp with ⟨hmem, hlt⟩
      exact ⟨p.2, hmem, by simpa using hlt⟩
    · rintro ⟨q, hmem, hlt⟩
      exact List.mem_map.mpr
        ⟨(name, q), List.mem_filter.mpr ⟨hmem, by simpa using hlt⟩, rfl⟩
  · exact List.Sublist.map Prod.fst (List.filter_sublist stock)

/-- Witness for C7: the default-threshold example evaluated. -/
theorem check_low_items_spec_witness :
    checkLowItemsDefault [("a", 2), ("b", 10), ("c", 4)] = ["a", "c"] :=
  (check_low_items_spec [] 0).2.2

/-- C8: a valid add of quantity 0 (the source default for qty) to an
absent name creates the entry at 0, so the zero-quantity item is a key,
is listed by check_low_items for every positive threshold and gets its
line in print_data, while get_qty returns 0 for it exactly as it did when
the item was absent; and add_item (with any qty) never removes a key. -/
theorem add_zero_entry_visible (stock : Inventory) (item : String)
    (logs : List String) (now : String)
    (hitem : item ≠ "") (habs : dictFind? stock item = none) :
    dictFind? (addItem stock item (PyVal.int 0) logs now).1 item = some 0 ∧
    (∀ threshold : Int, 0 < threshold →
        item ∈ checkLowItems (addItem stock item (PyVal.int 0) logs now).1
          threshold) ∧
    reportLine (item, 0) ∈
      printData (addItem stock item (PyVal.int 0) logs now).1 ∧
    getQty (addItem stock item (PyVal.int 0) logs now).1 item = 0 ∧
    getQty stock item = 0 ∧
    (∀ (qty : PyVal) (k : String), k ∈ stock.map Prod.fst →
        k ∈ (addItem stock item qty logs now).1.map Prod.fst) := by
  have hres : (addItem stock item (PyVal.int 0) logs now).1
      = dictSet stock item 0 := by
    rw [addItem_eq_valid stock item (PyVal.int 0) logs now hitem rfl]
    simp [dictGet, habs, PyVal.toInt]
  refine ⟨?_, fun threshold ht => ?_, ?_, ?_, ?_, fun qty k hk => ?_⟩
  · rw [hres, dictFind?_dictSet_self]
  · rw [hres]
    unfold checkLowItems
    exact List.mem_map.mpr
      ⟨(item, 0),
       List.mem_filter.mpr ⟨mem_dictSet_self stock item 0, by simpa using ht⟩,
       rfl⟩
  · rw [hres]
    unfold printData
    exact List.mem_append.mpr (Or.inl (List.mem_append.mpr (Or.inr
      (List.mem_map.mpr ⟨(item, 0), mem_dictSet_self stock item 0, rfl⟩))))
  · rw [hres]
    simp [getQty, dictGet, dictFind?_dictSet_self]
  · simp [getQty, dictGet, habs]
  · by_cases hq : qty.isInt = true
    · rw [addItem_eq_valid stock item qty logs now hitem hq]
      exact keys_dictSet_superset stock item k
        (dictGet stock item 0 + qty.toInt) hk
    · rw [addItem_eq_invalid stock item qty logs now
        (Or.inr (by simpa using hq))]
      exact hk

/-- Witness for C8: adding 0 of "x" to the empty inventory stores the
entry ("x", 0). -/
theorem add_zero_entry_visible_witness :
    dictFind? (addItem [] "x" (PyVal.int 0) [] "t").1 "x" = some 0 :=
  (add_zero_entry_visible [] "x" [] "t" (by decide) rfl).1

/-- C9: remove_item does no sign check on its quantity: removing a
negative quantity d from an item stored at a quantity above d raises the
stored quantity to stored - d, strictly more than before. -/
theorem remove_negative_increases (stock : Inventory) (item : String)
    (stored d : Int) (hfind : dictFind? stock item = some stored)
    (hneg : d < 0) (hgt : d < stored) :
    dictFind? (removeItem stock item d).1 item = some (stored - d) ∧
    stored < stored - d := by
  rw [removeItem_eq_of_gt stock item d stored hfind hgt]
  exact ⟨by simp [dictFind?_dictSet_self], by omega⟩

/-- Witness for C9: removing -3 of an item stored at 5 stores 5 - (-3). -/
theorem remove_negative_increases_witness :
    dictFind? (removeItem [("x", 5)] "x" (-3)).1 "x" = some (5 - (-3)) :=
  (remove_negative_increases [("x", 5)] "x" 5 (-3)
    (by decide) (by decide) (by decide)).1

/-- C10: load_data does no shape validation: any valid JSON document is
returned as decoded, with no diagnostics, even when it does not read back
as a flat mapping from string names to integer quantities. -/
theorem load_no_shape_validation :
    (∀ (fs : FS) (file : String) (v : PyVal),
        fs file = FileState.json v → loadData fs file = Except.ok (v, [])) ∧
    (∃ (v : PyVal) (fs : FS), fs "inventory.json" = FileState.json v ∧
        loadData fs "inventory.json" = Except.ok (v, []) ∧
        pyToInv v = none) := by
  refine ⟨fun fs file v h => by simp [loadData, h], ?_⟩
  exact ⟨PyVal.list [], fun _ => FileState.json (PyVal.list []),
    rfl, rfl, rfl⟩

/-- Witness for C10: a file holding the JSON string "oops" loads as that
string. -/
theorem load_no_shape_validation_witness :
    loadData (fun _ => FileState.json (PyVal.str "oops")) "p"
      = Except.ok (PyVal.str "oops", []) :=
  load_no_shape_validation.1 (fun _ => FileState.json (PyVal.str "oops"))
    "p" (PyVal.str "oops") rfl

end InventorySystem
